import Mathlib

/-!
Shallow embedding of the chef-infra build-and-deploy pipeline core
(`internal/pipeline`): the build data model, the NodeJS validator, the
build-context directory layout, the container builder's image tagging,
and the pipeline orchestrator (`StartBuild` / `executeBuild` /
`CancelBuild` / `GetBuild`), including a small-step trace model of the
execution task interleaved with cancellation, and an explicit model of
the Go context tree wired through `executeBuild`.

External effects (filesystem reads, the container engine, the deployer)
are parametrized as oracle functions so every definition stays
executable; statuses are Go strings, exactly as in
`internal/pipeline/types` (`BuildStatus string`).
-/

namespace ChefInfra

/-- Model of a Go `interface{}` value stored in `BuilderConfig`
(`map[string]interface{}`). A checked type assertion `v.(string)`
succeeds only on `str`; an unchecked assertion on anything else
(including an absent key, i.e. `nil`) panics at runtime. -/
inductive GoValue
| str (s : String)
| num (n : Int)
| other
deriving DecidableEq, Repr

/-- Go `map[string]interface{}`, as an association list (later bindings
shadow earlier ones, matching map overwrite). -/
abbrev GoMap := List (String × GoValue)

/-- The `Build` record from `internal/pipeline/types`. `status` is the Go
string (`BuildStatus string`, zero value `""`); `cancelFunc` models the
stored `context.CancelFunc` as the identifier of the context it cancels
(`none` = nil). Times are abstract clock values. -/
structure Build where
  id : String := ""
  projectID : String := ""
  commitHash : String := ""
  status : String := ""
  imageID : String := ""
  builderConfig : GoMap := []
  framework : String := ""
  buildCommand : String := ""
  outputDir : String := ""
  errorMessage : String := ""
  startTime : Nat := 0
  completeTime : Option Nat := none
  artifactPath : String := ""
  cancelFunc : Option Nat := none
deriving DecidableEq, Repr

/-- Output of a Builder invocation (`types.BuildResult`). -/
structure BuildResult where
  success : Bool
  artifactPath : String
  imageID : String
deriving DecidableEq, Repr

/-- Outcome of running a Go function that can return a value, return an
error, or panic. The `panicked` constructor records an unrecovered
runtime panic (process-fatal in the pipeline core, which installs no
recover handler). -/
inductive GoOutcome (α : Type)
| ok (a : α)
| errRet (msg : String)
| panicked (msg : String)
deriving DecidableEq, Repr

/-- The parsed `package.json` fields the validator reads
(`validator.PackageJSON`). Go maps become association lists; a missing
key reads as the zero value `""`. -/
structure PackageJSON where
  name : String := ""
  version : String := ""
  dependencies : List (String × String) := []
  scripts : List (String × String) := []
  engines : List (String × String) := []
deriving DecidableEq, Repr

/-- NodeJS validator configuration (`config.NodeJSConfig`), restricted to
the fields the validator consults. -/
structure NodeJSConfig where
  defaultVersion : String := ""
  allowedEngines : List String := []
deriving DecidableEq, Repr

/-- Deploy configuration (`config.DeployConfig`), restricted to the
fields relevant here; `maxDeploySize` is the configured maximum artifact
size in bytes. -/
structure DeployConfig where
  platform : String := ""
  staticPath : String := ""
  maxDeploySize : Int := 0
deriving DecidableEq, Repr

/-- Embedding of `NodeJSValidator.readPackageJSON`
(nodejs_validator.go:71-84). The source performs the unchecked type
assertion `build.BuilderConfig["workDir"].(string)`: when the key is
absent or not a string this panics; otherwise the file is read
(`readFile` oracle: path to contents or error) and parsed (`parseJSON`
oracle, standing for `json.Unmarshal`; `none` = malformed JSON). -/
def NodeJSValidator.readPackageJSON
    (readFile : String → Except String String)
    (parseJSON : String → Option PackageJSON)
    (b : Build) : GoOutcome PackageJSON :=
  match b.builderConfig.lookup "workDir" with
  | some (GoValue.str wd) =>
    match readFile (wd ++ "/package.json") with
    | Except.error e => GoOutcome.errRet ("failed to read package.json: " ++ e)
    | Except.ok data =>
      match parseJSON data with
      | none => GoOutcome.errRet "invalid package.json"
      | some pkg => GoOutcome.ok pkg
  | _ => GoOutcome.panicked "interface conversion: interface is nil, not string"

/-- Embedding of `NodeJSValidator.validateNodeVersion`
(nodejs_validator.go:86-100): no engine constraint (nil map or empty
`node` entry) passes; otherwise the declared version must equal one of
the configured allowed engines. -/
def NodeJSValidator.validateNodeVersion (cfg : NodeJSConfig) (pkg : PackageJSON) :
    Option String :=
  match pkg.engines.lookup "node" with
  | none => none
  | some v =>
    if v = "" then none
    else if cfg.allowedEngines.contains v then none
    else some ("unsupported node version: " ++ v)

/-- Embedding of `NodeJSValidator.validateBuildScript`
(nodejs_validator.go:102-113): the build command must be non-empty and
name an existing entry of the manifest scripts map. -/
def NodeJSValidator.validateBuildScript (pkg : PackageJSON) (b : Build) :
    Option String :=
  if b.buildCommand = "" then some "build command is required"
  else if (pkg.scripts.lookup b.buildCommand).isSome then none
  else some ("build command " ++ b.buildCommand ++ " not found in package.json scripts")

/-- Embedding of `NodeJSValidator.ValidateBuildConfig`
(nodejs_validator.go:31-49): read and parse the manifest, then check the
node version, then check the build script; a panic in
`readPackageJSON` propagates. -/
def NodeJSValidator.ValidateBuildConfig (cfg : NodeJSConfig)
    (readFile : String → Except String String)
    (parseJSON : String → Option PackageJSON)
    (b : Build) : GoOutcome Unit :=
  match NodeJSValidator.readPackageJSON readFile parseJSON b with
  | GoOutcome.panicked m => GoOutcome.panicked m
  | GoOutcome.errRet e => GoOutcome.errRet e
  | GoOutcome.ok pkg =>
    match NodeJSValidator.validateNodeVersion cfg pkg with
    | some e => GoOutcome.errRet e
    | none =>
      match NodeJSValidator.validateBuildScript pkg b with
      | some e => GoOutcome.errRet e
      | none => GoOutcome.ok ()

/-- The maximum artifact size hard-coded in
`NodeJSValidator.ValidateArtifact` (nodejs_validator.go:63):
`maxSize := int64(100 * 1024 * 1024)`. -/
def hardcodedMaxArtifactSize : Int := 100 * 1024 * 1024

/-- Embedding of `NodeJSValidator.ValidateArtifact`
(nodejs_validator.go:51-69). `stat` is the `os.Stat` oracle: `none`
means the path does not exist, `some n` gives the file size. The size
bound is the hard-coded 100 MiB constant; the validator consults no
configuration. Returns `some msg` on failure, `none` on success, as a
Go `error`. -/
def NodeJSValidator.ValidateArtifact (stat : String → Option Int)
    (artifactPath : String) : Option String :=
  match stat artifactPath with
  | none => some "artifact not found"
  | some size =>
    if size > hardcodedMaxArtifactSize then
      some "artifact size exceeds maximum allowed size"
    else none

/-- Embedding of the `BuildContext` directory layout computed by
`builder.NewBuildContext` (build_context.go:16-22): build, artifact and
cache directories under the given root, namespaced by build id. -/
structure BuildContext where
  rootDir : String
  buildDir : String
  artifactDir : String
  cacheDir : String
deriving DecidableEq, Repr

/-- Path computation of `builder.NewBuildContext` (build_context.go:16-22);
the directory-creation side effects are not needed for the claims about
the layout and cleanup. -/
def NewBuildContext (rootDir buildID : String) : BuildContext :=
  { rootDir := rootDir
    buildDir := rootDir ++ "/builds/" ++ buildID
    artifactDir := rootDir ++ "/artifacts/" ++ buildID
    cacheDir := rootDir ++ "/cache/" ++ buildID }

/-- Embedding of `BuildContext.Cleanup` (build_context.go:35-38): the set
of paths passed to `os.RemoveAll`. The source body is the single call
`os.RemoveAll(bc.BuildDir)`, so exactly the build directory is removed. -/
def BuildContext.cleanupRemoved (bc : BuildContext) : List String :=
  [bc.buildDir]

/-- Image tag computed by `NodeJSBuilder.Build` (nodejs builder, lines
58-61): `chef-<projectID>:<buildID>`, overridden to
`chef-<projectID>:<commitHash>` when the build has a commit hash. -/
def NodeJSBuilder.imageTag (b : Build) : String :=
  let tag := "chef-" ++ b.projectID ++ ":" ++ b.id
  if b.commitHash ≠ "" then "chef-" ++ b.projectID ++ ":" ++ b.commitHash
  else tag

/-- Oracle outcomes for the external effects of `NodeJSBuilder.Build`:
source-tree copy, Dockerfile write, docker image build submission,
docker progress-stream processing, and artifact extraction. `none`
means the step succeeds. -/
structure BuilderEnv where
  prepareErr : Option String := none
  dockerfileErr : Option String := none
  imageBuildErr : Option String := none
  processOutputErr : Option String := none
  artifactErr : Option String := none
deriving DecidableEq, Repr

/-- Embedding of `NodeJSBuilder.Build` (nodejs builder, lines 42-100):
runs the external steps in source order, failing fast with the wrapped
error of the first failing step; on success returns the `BuildResult`
with the archived artifact path and the computed image tag. -/
def NodeJSBuilder.Build (workDir : String) (env : BuilderEnv) (b : Build) :
    Except String BuildResult :=
  match env.prepareErr with
  | some e => Except.error ("failed to prepare build directory: " ++ e)
  | none =>
  match env.dockerfileErr with
  | some e => Except.error ("failed to create dockerfile: " ++ e)
  | none =>
  match env.imageBuildErr with
  | some e => Except.error ("docker build failed: " ++ e)
  | none =>
  match env.processOutputErr with
  | some e => Except.error e
  | none =>
  match env.artifactErr with
  | some e => Except.error ("failed to create artifact: " ++ e)
  | none =>
    Except.ok
      { success := true
        artifactPath := workDir ++ "/artifacts/" ++ b.id ++ ".tar.gz"
        imageID := NodeJSBuilder.imageTag b }

/-! ### The Go context tree wired through `executeBuild`

`executeBuild` builds this context structure (pipeline.go):
line 507 `buildCtx, cancel := context.WithCancel(ctx)`;
line 512 `build.CancelFunc = cancel`;
line 541 `_, timeoutCancel := context.WithTimeout(buildCtx, buildTimeout)`
(the derived context value is assigned to the blank identifier);
line 563 `builder.Build(ctx, build)`;
line 581 `p.deployer.Deploy(ctx, build)`.
Contexts are numbered 0 (the caller's `ctx`), 1 (`buildCtx`),
2 (the timeout context). -/

/-- Parent relation of the context tree built by `executeBuild`:
`buildCtx` (1) is derived from the caller context (0), and the timeout
context (2) is derived from `buildCtx` (1). -/
def ctxParent : Nat → Option Nat
  | 1 => some 0
  | 2 => some 1
  | _ => none

/-- Ancestor chains (self included) of the three contexts of
`executeBuild`, unfolding `ctxParent`. -/
def ctxAncestors : Nat → List Nat
  | 0 => [0]
  | 1 => [1, 0]
  | 2 => [2, 1, 0]
  | n + 3 => [n + 3]

/-- Go context-cancellation semantics on this tree: cancelling context
`c` signals context `t` exactly when `c` is an ancestor of `t` (or `t`
itself); cancellation never propagates from a derived context back to
its parent. -/
def cancelSignals (c t : Nat) : Bool :=
  (ctxAncestors t).contains c

/-- How `executeBuild` wires contexts into its calls, read off
pipeline.go lines 507, 512, 541, 563 and 581. -/
structure ExecuteBuildWiring where
  callerCtx : Nat
  buildCtx : Nat
  storedCancelTarget : Nat
  timeoutCtx : Nat
  timeoutCtxUsed : Bool
  buildCallCtx : Nat
  deployCallCtx : Nat
deriving DecidableEq, Repr

/-- The actual wiring of `executeBuild`: the stored `CancelFunc` cancels
`buildCtx` (line 507/512); the timeout context is created from
`buildCtx` but bound to `_` and never used (line 541); `builder.Build`
(line 563) and `deployer.Deploy` (line 581) both receive the original
`ctx` argument, context 0. -/
def executeBuildWiring : ExecuteBuildWiring :=
  { callerCtx := 0
    buildCtx := 1
    storedCancelTarget := 1
    timeoutCtx := 2
    timeoutCtxUsed := false
    buildCallCtx := 0
    deployCallCtx := 0 }

/-! ### Registry operations: StartBuild / GetBuild / CancelBuild -/

/-- The build registry `p.builds : map[string]*types.Build`, as an
association list; `lookup` finds the most recent binding, matching map
overwrite on registration. -/
abbrev Registry := List (String × Build)

/-- Registration `p.builds[build.ID] = build` (pipeline.go:486). -/
def Registry.register (reg : Registry) (b : Build) : Registry :=
  (b.id, b) :: reg

/-- In-place mutation of the build stored under `id` (Go mutates the
`*types.Build` the map points to, leaving the map itself unchanged). -/
def Registry.updateBuild (reg : Registry) (id : String) (b : Build) : Registry :=
  reg.map (fun p => if p.1 = id then (id, b) else p)

/-- Result of `Pipeline.StartBuild` (pipeline.go:479-500): the registry
afterwards, the call outcome (which can be a propagated panic from the
validator), and whether the execution goroutine was launched. -/
structure StartBuildOut where
  registry : Registry
  outcome : GoOutcome Unit
  launched : Bool
deriving DecidableEq, Repr

/-- Embedding of `Pipeline.StartBuild` (pipeline.go:479-500): run the
validator; on error return the wrapped validation error without
registering the build or launching the goroutine (a validator panic
propagates to the caller); on success register the build in the
registry and launch the asynchronous execution. -/
def Pipeline.StartBuild (validate : Build → GoOutcome Unit) (reg : Registry)
    (b : Build) : StartBuildOut :=
  match validate b with
  | GoOutcome.panicked m =>
    { registry := reg, outcome := GoOutcome.panicked m, launched := false }
  | GoOutcome.errRet e =>
    { registry := reg
      outcome := GoOutcome.errRet ("build validation failed: " ++ e)
      launched := false }
  | GoOutcome.ok _ =>
    { registry := reg.register b, outcome := GoOutcome.ok (), launched := true }

/-- Embedding of `Pipeline.GetBuild` (pipeline.go:618-628): the build
under `id`, or a not-found error. -/
def Pipeline.GetBuild (reg : Registry) (id : String) : Except String Build :=
  match reg.lookup id with
  | none => Except.error ("build not found: " ++ id)
  | some b => Except.ok b

/-- Result of `Pipeline.CancelBuild`: the registry afterwards, the
returned error (if any), and the context cancelled by invoking the
stored handle (`none` when no handle was invoked). -/
structure CancelBuildOut where
  registry : Registry
  err : Option String
  cancelledCtx : Option Nat
deriving DecidableEq, Repr

/-- Embedding of `Pipeline.CancelBuild` (pipeline.go:593-616): error on
unknown id; error when the status is not `building` (no mutation in
either case); otherwise invoke the stored cancel handle when one is
present, set status to cancelled and stamp the completion time `now`. -/
def Pipeline.CancelBuild (now : Nat) (reg : Registry) (id : String) :
    CancelBuildOut :=
  match reg.lookup id with
  | none =>
    { registry := reg, err := some ("build not found: " ++ id), cancelledCtx := none }
  | some b =>
    if b.status ≠ "building" then
      { registry := reg
        err := some ("cannot cancel build with status: " ++ b.status)
        cancelledCtx := none }
    else
      { registry := reg.updateBuild id
          { b with status := "cancelled", completeTime := some now }
        err := none
        cancelledCtx := b.cancelFunc }

/-! ### Sequential model of `executeBuild` and its goroutine wrapper -/

/-- Oracle outcomes for the external steps of `executeBuild`
(pipeline.go:502-591), in source order: `NewBuildContext`, the three
`os.MkdirAll` calls, `CreateBuilder`, `builder.Build`, the `os.Stat`
oracle used by `ValidateArtifact`, `Deploy` and `Rollback`. `none`
means the step succeeds. `clock` is the `time.Now()` value stamped on
success. -/
structure ExecEnv where
  buildContextErr : Option String := none
  mkdirBuildErr : Option String := none
  mkdirArtifactErr : Option String := none
  mkdirCacheErr : Option String := none
  createBuilderErr : Option String := none
  buildOutcome : Except String BuildResult := Except.error ""
  stat : String → Option Int := fun _ => none
  deployErr : Option String := none
  rollbackErr : Option String := none
  clock : Nat := 0

/-- Result of one run of `executeBuild`: the build record as mutated by
the execution task, the error it returned (if any), whether
`deployer.Deploy` was invoked, and how many times `deployer.Rollback`
was invoked. -/
structure ExecOut where
  build : Build
  retErr : Option String
  deployCalled : Bool
  rollbackCalls : Nat
deriving Repr

/-- Embedding of `Pipeline.executeBuild` (pipeline.go:502-591), with the
external effects drawn from `env`: set status to building and store the
cancel handle; run build-context setup, builder creation and the build
step, returning the first wrapped error; validate the artifact with
`NodeJSValidator.ValidateArtifact`; on success record status, artifact
path, image id and completion time; then deploy, rolling back exactly
once (best-effort) if deployment fails. -/
def Pipeline.executeBuild (env : ExecEnv) (b0 : Build) : ExecOut :=
  let b := { b0 with status := "building", cancelFunc := some 1 }
  match env.buildContextErr with
  | some e =>
    { build := b, retErr := some ("failed to create build context: " ++ e)
      deployCalled := false, rollbackCalls := 0 }
  | none =>
  match env.mkdirBuildErr with
  | some e =>
    { build := b, retErr := some ("failed to create build directory: " ++ e)
      deployCalled := false, rollbackCalls := 0 }
  | none =>
  match env.mkdirArtifactErr with
  | some e =>
    { build := b, retErr := some ("failed to create artifact directory: " ++ e)
      deployCalled := false, rollbackCalls := 0 }
  | none =>
  match env.mkdirCacheErr with
  | some e =>
    { build := b, retErr := some ("failed to create cache directory: " ++ e)
      deployCalled := false, rollbackCalls := 0 }
  | none =>
  match env.createBuilderErr with
  | some e =>
    { build := b, retErr := some ("failed to create builder: " ++ e)
      deployCalled := false, rollbackCalls := 0 }
  | none =>
  match env.buildOutcome with
  | Except.error e =>
    { build := b, retErr := some ("build failed: " ++ e)
      deployCalled := false, rollbackCalls := 0 }
  | Except.ok res =>
    match NodeJSValidator.ValidateArtifact env.stat res.artifactPath with
    | some e =>
      { build := b, retErr := some ("artifact validation failed: " ++ e)
        deployCalled := false, rollbackCalls := 0 }
    | none =>
      let b := { b with status := "success", artifactPath := res.artifactPath
                        imageID := res.imageID, completeTime := some env.clock }
      match env.deployErr with
      | some e =>
        { build := b, retErr := some ("deployment failed: " ++ e)
          deployCalled := true, rollbackCalls := 1 }
      | none =>
        { build := b, retErr := none, deployCalled := true, rollbackCalls := 0 }

/-- The goroutine launched by `StartBuild` (pipeline.go:489-497): run
`executeBuild` and, if it returned an error, set the build status to
failed and record the error message. -/
def Pipeline.runBuildTask (env : ExecEnv) (b0 : Build) : ExecOut :=
  let r := Pipeline.executeBuild env b0
  match r.retErr with
  | some e =>
    { r with build := { r.build with status := "failed", errorMessage := e } }
  | none => r

/-! ### Interleaved model: the execution task racing `CancelBuild`

The execution task's status writes, at the granularity of the atomic
assignments to `build.Status` in pipeline.go: `building` at the start of
`executeBuild` (line 504), `success` after build and artifact
validation (line 574), and `failed` in the goroutine error handler
(line 494). `CancelBuild` (lines 593-616) may interleave between any
two of them; it writes `cancelled` only while the status is `building`.
The external build/validate steps and the deploy step are collapsed
into their success/failure outcomes (`TaskEnv`), which is faithful for
status transitions: every error path of `executeBuild` leads to the
single `failed` write of the goroutine handler. -/

/-- Outcomes of the external steps for one run of the execution task:
`buildOk` covers build-context setup, builder creation, `builder.Build`
and artifact validation collectively (any failure leads to the error
handler); `deployOk` is the deploy outcome. -/
structure TaskEnv where
  buildOk : Bool
  buildErrMsg : String := ""
  deployOk : Bool
  deployErrMsg : String := ""
  successClock : Nat := 0
  resArtifactPath : String := ""
  resImageID : String := ""
deriving DecidableEq, Repr

/-- State of one build's execution: the build record plus the execution
task's program counter. Program points: 0 = not started; 1 = status set
to building, external build steps pending; 2 = build and artifact
validation succeeded, success write pending; 3 = success written,
deploy pending; 4 = done after the error handler wrote failed; 5 =
done after the deploy step. -/
structure PState where
  build : Build
  pc : Nat
deriving DecidableEq, Repr

/-- One atomic step of the execution task, by program counter. -/
def taskStep (env : TaskEnv) (s : PState) : PState :=
  match s.pc with
  | 0 =>
    let b := { s.build with status := "building", cancelFunc := some 1 }
    { build := b, pc := 1 }
  | 1 =>
    if env.buildOk then { s with pc := 2 }
    else
      let b := { s.build with status := "failed"
                              errorMessage := "build failed: " ++ env.buildErrMsg }
      { build := b, pc := 4 }
  | 2 =>
    let b := { s.build with status := "success"
                            artifactPath := env.resArtifactPath
                            imageID := env.resImageID
                            completeTime := some env.successClock }
    { build := b, pc := 3 }
  | 3 =>
    if env.deployOk then { s with pc := 5 }
    else
      let b := { s.build with status := "failed"
                              errorMessage := "deployment failed: " ++ env.deployErrMsg }
      { build := b, pc := 5 }
  | _ => s

/-- The atomic effect of a successful interleaved `CancelBuild` on this
build (pipeline.go:602-613): when the status is `building` it becomes
`cancelled` with the completion time stamped; otherwise `CancelBuild`
returns an error and changes nothing. -/
def cancelStep (now : Nat) (s : PState) : PState :=
  if s.build.status = "building" then
    { s with build := { s.build with status := "cancelled", completeTime := some now } }
  else s

/-- Events of the interleaved system: one step of the execution task, or
a `CancelBuild` call at clock `now`. -/
inductive Ev
| task
| cancel (now : Nat)
deriving DecidableEq, Repr

/-- Apply one event to the state. -/
def stepEv (env : TaskEnv) (s : PState) : Ev → PState
  | Ev.task => taskStep env s
  | Ev.cancel now => cancelStep now s

/-- Run a trace of events from a state. -/
def runEvents (env : TaskEnv) (s : PState) (tr : List Ev) : PState :=
  tr.foldl (stepEv env) s

/-- Initial state for a freshly submitted build: the record as registered
by `StartBuild`, execution not yet started. -/
def initState (b : Build) : PState :=
  { build := b, pc := 0 }

/-- All intermediate states of a run, first state included. -/
def stateTrace (env : TaskEnv) (s : PState) : List Ev → List PState
  | [] => [s]
  | e :: tr => s :: stateTrace env (stepEv env s e) tr

/-- The status of the build after each prefix of the trace. -/
def statusTrace (env : TaskEnv) (s : PState) (tr : List Ev) : List String :=
  (stateTrace env s tr).map (fun t => t.build.status)

/-- The status transitions the code actually performs, as ordered pairs:
registration (zero status) to building; building to success, failed or
cancelled; success to failed (deploy failure overrides the success
write); and cancelled to success or failed (the execution task
overwrites an interleaved cancellation). -/
def codeStatusPairs : List (String × String) :=
  [("", "building"), ("building", "success"), ("building", "failed"),
   ("building", "cancelled"), ("success", "failed"),
   ("cancelled", "success"), ("cancelled", "failed")]

/-- A single observed status change is either a stutter or one of the
transitions of `codeStatusPairs`. -/
def statusStepOk (a b : String) : Prop :=
  a = b ∨ (a, b) ∈ codeStatusPairs

instance (a b : String) : Decidable (statusStepOk a b) := by
  unfold statusStepOk
  infer_instance

/-! ### Theorems -/

/-- C2 (code bug): invoking the stored cancellation handle does not
signal the in-flight `Builder.Build` and `Deployer.Deploy` calls. The
handle stored on the Build cancels `buildCtx` (context 1, derived from
the caller context 0), but `executeBuild` passes the original caller
context 0 — not `buildCtx` or a derivative — to both calls
(pipeline.go:563 and 581), and cancelling a derived context never
signals its parent, so neither call observes the cancellation. -/
theorem C2_cancel_handle_does_not_signal_calls :
    executeBuildWiring.storedCancelTarget = executeBuildWiring.buildCtx ∧
    ctxParent executeBuildWiring.buildCtx = some executeBuildWiring.callerCtx ∧
    executeBuildWiring.buildCallCtx = executeBuildWiring.callerCtx ∧
    executeBuildWiring.deployCallCtx = executeBuildWiring.callerCtx ∧
    cancelSignals executeBuildWiring.storedCancelTarget
      executeBuildWiring.buildCallCtx = false ∧
    cancelSignals executeBuildWiring.storedCancelTarget
      executeBuildWiring.deployCallCtx = false := by
  decide

/-- C5 (code bug): the timeout context created at pipeline.go:541 is
derived from `buildCtx` but assigned to the blank identifier and never
used: the builder and deployer calls run under the original caller
context, which the timeout context's expiry does not signal, so the
configured default timeout never bounds the build. -/
theorem C5_timeout_context_discarded :
    ctxParent executeBuildWiring.timeoutCtx = some executeBuildWiring.buildCtx ∧
    executeBuildWiring.timeoutCtxUsed = false ∧
    executeBuildWiring.buildCallCtx ≠ executeBuildWiring.timeoutCtx ∧
    executeBuildWiring.deployCallCtx ≠ executeBuildWiring.timeoutCtx ∧
    cancelSignals executeBuildWiring.timeoutCtx
      executeBuildWiring.buildCallCtx = false ∧
    cancelSignals executeBuildWiring.timeoutCtx
      executeBuildWiring.deployCallCtx = false := by
  decide

/-- C9 (code bug): `BuildContext.Cleanup` removes only the build
directory; the cache directory allocated for the build survives cleanup
(the artifact directory is retained as specified, but the source comment
says everything except artifacts is cleaned up). Evaluated at the
build context for root `/data` and build id `b1`. -/
theorem C9_cleanup_retains_cache_dir :
    (NewBuildContext "/data" "b1").cleanupRemoved = ["/data/builds/b1"] ∧
    (NewBuildContext "/data" "b1").buildDir ∈
      (NewBuildContext "/data" "b1").cleanupRemoved ∧
    (NewBuildContext "/data" "b1").cacheDir ∉
      (NewBuildContext "/data" "b1").cleanupRemoved ∧
    (NewBuildContext "/data" "b1").artifactDir ∉
      (NewBuildContext "/data" "b1").cleanupRemoved := by
  decide

/-- A run environment in which the external build and deploy steps both
succeed (the in-flight build keeps running after a cancellation, since
its context is never actually cancelled — see C2). -/
def envC1 : TaskEnv :=
  { buildOk := true, deployOk := true, successClock := 8
    resArtifactPath := "/artifacts/b1.tar.gz", resImageID := "chef-p1:b1" }

/-- A freshly submitted build (status is the Go zero value). -/
def buildC1 : Build := { id := "b1", projectID := "p1" }

/-- Interleaving: execution starts (status building), `CancelBuild`
succeeds at clock 5 (status cancelled), then the execution task finishes
its build step and performs its success write. -/
def traceC1 : List Ev := [Ev.task, Ev.cancel 5, Ev.task, Ev.task]

/-- C1 (counterexample): it is not true that once a build's status is
cancelled it stays cancelled. In the run `traceC1`, after two events the
status is `cancelled`, but after the execution task's success write it
is `success`: the task overwrites the terminal cancelled state. -/
theorem C1_cancelled_overwritten :
    ¬ (∀ (env : TaskEnv) (b : Build) (tr : List Ev) (i j : Nat), i ≤ j →
        (runEvents env (initState b) (tr.take i)).build.status = "cancelled" →
        (runEvents env (initState b) (tr.take j)).build.status = "cancelled") := by
  intro h
  have h2 := h envC1 buildC1 traceC1 2 4 (by decide) (by decide)
  exact absurd h2 (by decide)

/-- Invariant tying the execution task's program counter to the statuses
the build can hold at that point, under arbitrary interleaving with
`CancelBuild`. -/
def pcStatusInv (s : PState) : Prop :=
  (s.pc = 0 ∧ s.build.status = "") ∨
  ((s.pc = 1 ∨ s.pc = 2) ∧
    (s.build.status = "building" ∨ s.build.status = "cancelled")) ∨
  (s.pc = 3 ∧ s.build.status = "success") ∨
  (s.pc = 4 ∧ s.build.status = "failed") ∨
  (s.pc = 5 ∧ (s.build.status = "success" ∨ s.build.status = "failed"))

/-- Every event preserves the program-counter/status invariant, and the
status it writes is a stutter or one of the transitions the code
performs. -/
theorem stepEv_inv (env : TaskEnv) (s : PState) (e : Ev) (h : pcStatusInv s) :
    pcStatusInv (stepEv env s e) ∧
      statusStepOk s.build.status (stepEv env s e).build.status := by
  obtain ⟨b, pc⟩ := s
  cases e with
  | cancel now =>
    by_cases hb : b.status = "building"
    · have hpc : pc = 1 ∨ pc = 2 := by
        rcases h with ⟨_, hs⟩ | ⟨hp, _⟩ | ⟨_, hs⟩ | ⟨_, hs⟩ | ⟨_, hs⟩
        · have hs2 : b.status = "" := hs
          rw [hb] at hs2
          exact absurd hs2 (by decide)
        · exact hp
        · have hs2 : b.status = "success" := hs
          rw [hb] at hs2
          exact absurd hs2 (by decide)
        · have hs2 : b.status = "failed" := hs
          rw [hb] at hs2
          exact absurd hs2 (by decide)
        · have hs2 : b.status = "success" ∨ b.status = "failed" := hs
          rcases hs2 with hs2 | hs2 <;> rw [hb] at hs2 <;> exact absurd hs2 (by decide)
      have hst : stepEv env ⟨b, pc⟩ (Ev.cancel now) =
          ⟨{ b with status := "cancelled", completeTime := some now }, pc⟩ := by
        simp [stepEv, cancelStep, hb]
      rw [hst]
      refine ⟨Or.inr (Or.inl ⟨hpc, Or.inr rfl⟩), ?_⟩
      show statusStepOk b.status "cancelled"
      rw [hb]
      decide
    · have hst : stepEv env ⟨b, pc⟩ (Ev.cancel now) = ⟨b, pc⟩ := by
        simp [stepEv, cancelStep, hb]
      rw [hst]
      exact ⟨h, Or.inl rfl⟩
  | task =>
    rcases h with ⟨h0, hs⟩ | ⟨hp, hs⟩ | ⟨h3, hs⟩ | ⟨h4, hs⟩ | ⟨h5, hs⟩
    · have hpc : pc = 0 := h0
      subst hpc
      have hs2 : b.status = "" := hs
      have hst : stepEv env ⟨b, 0⟩ Ev.task =
          ⟨{ b with status := "building", cancelFunc := some 1 }, 1⟩ := rfl
      rw [hst]
      refine ⟨Or.inr (Or.inl ⟨Or.inl rfl, Or.inl rfl⟩), ?_⟩
      show statusStepOk b.status "building"
      rw [hs2]
      decide
    · have hs2 : b.status = "building" ∨ b.status = "cancelled" := hs
      have hpc : pc = 1 ∨ pc = 2 := hp
      rcases hpc with hpc | hpc
      · subst hpc
        by_cases hok : env.buildOk
        · have hst : stepEv env ⟨b, 1⟩ Ev.task = ⟨b, 2⟩ := by
            simp [stepEv, taskStep, hok]
          rw [hst]
          exact ⟨Or.inr (Or.inl ⟨Or.inr rfl, hs2⟩), Or.inl rfl⟩
        · have hst : stepEv env ⟨b, 1⟩ Ev.task =
              ⟨{ b with status := "failed"
                        errorMessage := "build failed: " ++ env.buildErrMsg }, 4⟩ := by
            simp [stepEv, taskStep, hok]
          rw [hst]
          refine ⟨Or.inr (Or.inr (Or.inr (Or.inl ⟨rfl, rfl⟩))), ?_⟩
          show statusStepOk b.status "failed"
          rcases hs2 with hs2 | hs2 <;> rw [hs2] <;> decide
      · subst hpc
        have hst : stepEv env ⟨b, 2⟩ Ev.task =
            ⟨{ b with status := "success"
                      artifactPath := env.resArtifactPath
                      imageID := env.resImageID
                      completeTime := some env.successClock }, 3⟩ := rfl
        rw [hst]
        refine ⟨Or.inr (Or.inr (Or.inl ⟨rfl, rfl⟩)), ?_⟩
        show statusStepOk b.status "success"
        rcases hs2 with hs2 | hs2 <;> rw [hs2] <;> decide
    · have hpc : pc = 3 := h3
      subst hpc
      have hs2 : b.status = "success" := hs
      by_cases hok : env.deployOk
      · have hst : stepEv env ⟨b, 3⟩ Ev.task = ⟨b, 5⟩ := by
          simp [stepEv, taskStep, hok]
        rw [hst]
        exact ⟨Or.inr (Or.inr (Or.inr (Or.inr ⟨rfl, Or.inl hs2⟩))), Or.inl rfl⟩
      · have hst : stepEv env ⟨b, 3⟩ Ev.task =
            ⟨{ b with status := "failed"
                      errorMessage := "deployment failed: " ++ env.deployErrMsg }, 5⟩ := by
          simp [stepEv, taskStep, hok]
        rw [hst]
        refine ⟨Or.inr (Or.inr (Or.inr (Or.inr ⟨rfl, Or.inr rfl⟩))), ?_⟩
        show statusStepOk b.status "failed"
        rw [hs2]
        decide
    · have hpc : pc = 4 := h4
      subst hpc
      have hs2 : b.status = "failed" := hs
      have hst : stepEv env ⟨b, 4⟩ Ev.task = ⟨b, 4⟩ := rfl
      rw [hst]
      exact ⟨Or.inr (Or.inr (Or.inr (Or.inl ⟨rfl, hs2⟩))), Or.inl rfl⟩
    · have hpc : pc = 5 := h5
      subst hpc
      have hs2 : b.status = "success" ∨ b.status = "failed" := hs
      have hst : stepEv env ⟨b, 5⟩ Ev.task = ⟨b, 5⟩ := rfl
      rw [hst]
      exact ⟨Or.inr (Or.inr (Or.inr (Or.inr ⟨rfl, hs2⟩))), Or.inl rfl⟩

/-- The first state of a trace is the starting state, so the status
trace starts with the starting status. -/
theorem statusTrace_head (env : TaskEnv) (s : PState) (tr : List Ev) :
    (statusTrace env s tr).head? = some s.build.status := by
  cases tr <;> simp [statusTrace, stateTrace]

/-- Along any event trace from a state satisfying the invariant, each
consecutive pair of statuses is a stutter or a transition the code
performs. -/
theorem statusTrace_chain (env : TaskEnv) :
    ∀ (tr : List Ev) (s : PState), pcStatusInv s →
      List.Chain' statusStepOk (statusTrace env s tr)
  | [], s, _ => by simp [statusTrace, stateTrace]
  | e :: tr, s, h => by
    have hstep := stepEv_inv env s e h
    have ih := statusTrace_chain env tr (stepEv env s e) hstep.1
    have hd := statusTrace_head env (stepEv env s e) tr
    have hexp : statusTrace env s (e :: tr) =
        s.build.status :: statusTrace env (stepEv env s e) tr := by
      simp [statusTrace, stateTrace]
    rw [hexp]
    refine List.chain'_cons'.mpr ⟨?_, ih⟩
    intro y hy
    rw [hd] at hy
    cases hy
    exact hstep.2

/-- C1 (amended): for a freshly submitted build, under every
interleaving of the execution task with `CancelBuild` calls, the status
only ever moves along: zero value to building; building to success,
failed, or cancelled; success to failed (a failed deployment overrides
the success write); and cancelled to success or failed (the execution
task overwrites an interleaved cancellation). In particular the
terminal statuses are not final: both success and cancelled can be
overwritten, exactly as `codeStatusPairs` records. -/
theorem C1_status_transitions (env : TaskEnv) (b : Build) (h : b.status = "")
    (tr : List Ev) :
    List.Chain' statusStepOk (statusTrace env (initState b) tr) := by
  apply statusTrace_chain
  exact Or.inl ⟨rfl, h⟩

/-- C1 witness: the amended transition property evaluated on the
concrete interleaving of `traceC1`. -/
theorem C1_status_transitions_witness :
    List.Chain' statusStepOk (statusTrace envC1 (initState buildC1) traceC1) :=
  C1_status_transitions envC1 buildC1 rfl traceC1

/-- C3 (confirmed): when every step up to deployment succeeds and
`Deployer.Deploy` returns the error `e`, the execution task invokes
`Deployer.Rollback` exactly once, the build ends with status failed and
the wrapped deploy error as its recorded failure reason, and the
outcome of `Rollback` has no effect on any of this (it is only
logged). -/
theorem C3_deploy_failure_rollback (env : ExecEnv) (b0 : Build) (e : String)
    (res : BuildResult)
    (h1 : env.buildContextErr = none) (h2 : env.mkdirBuildErr = none)
    (h3 : env.mkdirArtifactErr = none) (h4 : env.mkdirCacheErr = none)
    (h5 : env.createBuilderErr = none)
    (h6 : env.buildOutcome = Except.ok res)
    (h7 : NodeJSValidator.ValidateArtifact env.stat res.artifactPath = none)
    (h8 : env.deployErr = some e) :
    (Pipeline.runBuildTask env b0).rollbackCalls = 1 ∧
    (Pipeline.runBuildTask env b0).deployCalled = true ∧
    (Pipeline.runBuildTask env b0).build.status = "failed" ∧
    (Pipeline.runBuildTask env b0).build.errorMessage = "deployment failed: " ++ e ∧
    (∀ rb : Option String,
      Pipeline.runBuildTask { env with rollbackErr := rb } b0 =
        Pipeline.runBuildTask env b0) := by
  refine ⟨?_, ?_, ?_, ?_, ?_⟩ <;>
    simp [Pipeline.runBuildTask, Pipeline.executeBuild, h1, h2, h3, h4, h5, h6, h7, h8]

/-- C3 witness environment: all steps succeed except the deploy step,
which fails with `boom`. -/
def envC3 : ExecEnv :=
  { buildOutcome := Except.ok
      { success := true, artifactPath := "/a/x.tar.gz", imageID := "chef-p1:c9" }
    stat := fun _ => some 512
    deployErr := some "boom"
    clock := 3 }

/-- C3 witness: the deploy-failure guarantee evaluated in `envC3`. -/
theorem C3_deploy_failure_rollback_witness :
    (Pipeline.runBuildTask envC3 { id := "b1" }).rollbackCalls = 1 ∧
    (Pipeline.runBuildTask envC3 { id := "b1" }).deployCalled = true ∧
    (Pipeline.runBuildTask envC3 { id := "b1" }).build.status = "failed" ∧
    (Pipeline.runBuildTask envC3 { id := "b1" }).build.errorMessage =
      "deployment failed: " ++ "boom" ∧
    (∀ rb : Option String,
      Pipeline.runBuildTask { envC3 with rollbackErr := rb } { id := "b1" } =
        Pipeline.runBuildTask envC3 { id := "b1" }) :=
  C3_deploy_failure_rollback envC3 { id := "b1" } "boom"
    { success := true, artifactPath := "/a/x.tar.gz", imageID := "chef-p1:c9" }
    rfl rfl rfl rfl rfl rfl (by decide) rfl

/-- C4 (confirmed): when the validator rejects a build whose id is not
yet registered, `StartBuild` returns the wrapped validation error, the
registry is unchanged, no execution goroutine is launched, and a
subsequent `GetBuild` for that id returns the not-found error. -/
theorem C4_validation_failure_not_registered
    (validate : Build → GoOutcome Unit) (reg : Registry) (b : Build) (e : String)
    (hv : validate b = GoOutcome.errRet e)
    (hfresh : reg.lookup b.id = none) :
    (Pipeline.StartBuild validate reg b).outcome =
      GoOutcome.errRet ("build validation failed: " ++ e) ∧
    (Pipeline.StartBuild validate reg b).registry = reg ∧
    (Pipeline.StartBuild validate reg b).launched = false ∧
    Pipeline.GetBuild (Pipeline.StartBuild validate reg b).registry b.id =
      Except.error ("build not found: " ++ b.id) := by
  refine ⟨?_, ?_, ?_, ?_⟩ <;>
    simp [Pipeline.StartBuild, Pipeline.GetBuild, hv, hfresh]

/-- C4 witness validator: always rejects with a malformed-manifest
error, as the integration test forces. -/
def validateC4 : Build → GoOutcome Unit :=
  fun _ => GoOutcome.errRet "invalid package.json"

/-- C4 witness: the rejected submission evaluated on an empty registry. -/
theorem C4_validation_failure_not_registered_witness :
    (Pipeline.StartBuild validateC4 [] { id := "b1" }).outcome =
      GoOutcome.errRet ("build validation failed: " ++ "invalid package.json") ∧
    (Pipeline.StartBuild validateC4 [] { id := "b1" }).registry = [] ∧
    (Pipeline.StartBuild validateC4 [] { id := "b1" }).launched = false ∧
    Pipeline.GetBuild (Pipeline.StartBuild validateC4 [] { id := "b1" }).registry "b1" =
      Except.error ("build not found: " ++ "b1") :=
  C4_validation_failure_not_registered validateC4 [] { id := "b1" }
    "invalid package.json" rfl rfl

/-- Deploy configuration for the C6 counterexample: the configured
maximum deployable size is 10 bytes. -/
def deployCfgC6 : DeployConfig :=
  { platform := "static", staticPath := "/srv/www", maxDeploySize := 10 }

/-- Stat oracle for the C6 counterexample: the produced artifact is 20
bytes, exceeding the configured maximum. -/
def statC6 : String → Option Int := fun _ => some 20

/-- Execution environment for the C6 counterexample: every external step
succeeds and the artifact of 20 bytes is produced. -/
def envC6 : ExecEnv :=
  { buildOutcome := Except.ok
      { success := true, artifactPath := "/a/big.tar.gz", imageID := "chef-p1:c1" }
    stat := statC6
    clock := 2 }

/-- C6 (counterexample): an artifact of 20 bytes exceeds the configured
maximum size of 10 bytes, yet `ValidateArtifact` accepts it — the
validator compares against its hard-coded 100 MiB constant, not the
configuration — so the build reaches success and `Deploy` is invoked,
contradicting the claim as stated. -/
theorem C6_configured_max_ignored :
    (20 : Int) > deployCfgC6.maxDeploySize ∧
    NodeJSValidator.ValidateArtifact statC6 "/a/big.tar.gz" = none ∧
    (Pipeline.runBuildTask envC6 { id := "b1" }).deployCalled = true ∧
    (Pipeline.runBuildTask envC6 { id := "b1" }).build.status = "success" := by
  refine ⟨by decide, by decide, rfl, rfl⟩

/-- C6 (amended): when the produced artifact exceeds the hard-coded
100 MiB limit of `ValidateArtifact` (the configured maximum is not
consulted), the build fails with the artifact-validation error and
`Deploy` is never invoked. -/
theorem C6_oversize_artifact_fails_before_deploy (env : ExecEnv) (b0 : Build)
    (res : BuildResult) (n : Int)
    (h1 : env.buildContextErr = none) (h2 : env.mkdirBuildErr = none)
    (h3 : env.mkdirArtifactErr = none) (h4 : env.mkdirCacheErr = none)
    (h5 : env.createBuilderErr = none)
    (h6 : env.buildOutcome = Except.ok res)
    (hstat : env.stat res.artifactPath = some n)
    (hbig : n > hardcodedMaxArtifactSize) :
    (Pipeline.runBuildTask env b0).deployCalled = false ∧
    (Pipeline.runBuildTask env b0).rollbackCalls = 0 ∧
    (Pipeline.runBuildTask env b0).build.status = "failed" ∧
    (Pipeline.runBuildTask env b0).build.errorMessage =
      "artifact validation failed: " ++ "artifact size exceeds maximum allowed size" := by
  have hv : NodeJSValidator.ValidateArtifact env.stat res.artifactPath =
      some "artifact size exceeds maximum allowed size" := by
    simp [NodeJSValidator.ValidateArtifact, hstat, hbig]
  refine ⟨?_, ?_, ?_, ?_⟩ <;>
    simp [Pipeline.runBuildTask, Pipeline.executeBuild, h1, h2, h3, h4, h5, h6, hv]

/-- Environment for the C6 witness: the produced artifact is one byte
over the hard-coded 100 MiB limit. -/
def envC6big : ExecEnv :=
  { buildOutcome := Except.ok
      { success := true, artifactPath := "/a/huge.tar.gz", imageID := "chef-p1:c2" }
    stat := fun _ => some (100 * 1024 * 1024 + 1)
    clock := 2 }

/-- C6 witness: the amended oversize-artifact behaviour evaluated in
`envC6big`. -/
theorem C6_oversize_artifact_witness :
    (Pipeline.runBuildTask envC6big { id := "b1" }).deployCalled = false ∧
    (Pipeline.runBuildTask envC6big { id := "b1" }).rollbackCalls = 0 ∧
    (Pipeline.runBuildTask envC6big { id := "b1" }).build.status = "failed" ∧
    (Pipeline.runBuildTask envC6big { id := "b1" }).build.errorMessage =
      "artifact validation failed: " ++ "artifact size exceeds maximum allowed size" :=
  C6_oversize_artifact_fails_before_deploy envC6big { id := "b1" }
    { success := true, artifactPath := "/a/huge.tar.gz", imageID := "chef-p1:c2" }
    (100 * 1024 * 1024 + 1) rfl rfl rfl rfl rfl rfl rfl (by decide)

/-- C7 (confirmed): `CancelBuild` returns an error and mutates nothing
when the id is unknown or the build is not in building state; when the
build is building it returns no error, invokes exactly the stored
cancellation handle, sets status to cancelled and stamps the completion
time, leaving every other field of the build unchanged. -/
theorem C7_cancelBuild (now : Nat) (reg : Registry) (id : String) :
    (reg.lookup id = none →
      Pipeline.CancelBuild now reg id =
        { registry := reg, err := some ("build not found: " ++ id)
          cancelledCtx := none }) ∧
    (∀ b : Build, reg.lookup id = some b → b.status ≠ "building" →
      Pipeline.CancelBuild now reg id =
        { registry := reg
          err := some ("cannot cancel build with status: " ++ b.status)
          cancelledCtx := none }) ∧
    (∀ b : Build, reg.lookup id = some b → b.status = "building" →
      (Pipeline.CancelBuild now reg id).err = none ∧
      (Pipeline.CancelBuild now reg id).cancelledCtx = b.cancelFunc ∧
      (Pipeline.CancelBuild now reg id).registry =
        reg.updateBuild id { b with status := "cancelled"
                                    completeTime := some now }) := by
  refine ⟨?_, ?_, ?_⟩
  · intro hnone
    simp [Pipeline.CancelBuild, hnone]
  · intro b hb hnb
    simp [Pipeline.CancelBuild, hb, hnb]
  · intro b hb hbs
    refine ⟨?_, ?_, ?_⟩ <;> simp [Pipeline.CancelBuild, hb, hbs]

/-- The build the C7 witness cancels: in building state with a stored
cancellation handle for context 1. -/
def bldC7 : Build := { id := "b1", status := "building", cancelFunc := some 1 }

/-- Registry for the C7 witness, holding `bldC7` and one already
finished build. -/
def regC7 : Registry :=
  [("b1", bldC7), ("b2", { id := "b2", status := "success" })]

/-- C7 witness: on `regC7`, cancelling the unknown id `zz` errors and
mutates nothing, cancelling the finished `b2` errors and mutates
nothing, and cancelling the in-flight `b1` succeeds, invokes the
stored handle and stamps the completion time. -/
theorem C7_cancelBuild_witness :
    Pipeline.CancelBuild 9 regC7 "zz" =
      { registry := regC7, err := some ("build not found: " ++ "zz")
        cancelledCtx := none } ∧
    Pipeline.CancelBuild 9 regC7 "b2" =
      { registry := regC7
        err := some ("cannot cancel build with status: " ++ "success")
        cancelledCtx := none } ∧
    (Pipeline.CancelBuild 9 regC7 "b1").err = none ∧
    (Pipeline.CancelBuild 9 regC7 "b1").cancelledCtx = some 1 ∧
    (Pipeline.CancelBuild 9 regC7 "b1").registry =
      regC7.updateBuild "b1" { bldC7 with status := "cancelled"
                                          completeTime := some 9 } := by
  have h1 := (C7_cancelBuild 9 regC7 "zz").1 (by decide)
  have h2 := (C7_cancelBuild 9 regC7 "b2").2.1
    { id := "b2", status := "success" } (by decide) (by decide)
  have h3 := (C7_cancelBuild 9 regC7 "b1").2.2 bldC7 (by decide) (by decide)
  exact ⟨h1, h2, h3.1, h3.2.1, h3.2.2⟩

/-- The failing input for C8: a build whose `builderConfig` contains the
required `sourceDir` entry but no `workDir` entry. -/
def buildC8 : Build :=
  { id := "b1", projectID := "p1", framework := "react"
    buildCommand := "build", outputDir := "build"
    builderConfig := [("sourceDir", GoValue.str "/projects/app")] }

/-- C8 (code bug): submitting `buildC8` — whose `builderConfig` contains
`sourceDir` but no `workDir` — makes `readPackageJSON`'s unchecked type
assertion on `BuilderConfig["workDir"]` panic, and the panic propagates
out of `ValidateBuildConfig` and `StartBuild` regardless of the
configuration, the filesystem and the registry: the failure is not
reported as a returned error. -/
theorem C8_startBuild_panics_on_missing_workdir
    (cfg : NodeJSConfig) (readFile : String → Except String String)
    (parseJSON : String → Option PackageJSON) (reg : Registry) :
    NodeJSValidator.readPackageJSON readFile parseJSON buildC8 =
      GoOutcome.panicked "interface conversion: interface is nil, not string" ∧
    NodeJSValidator.ValidateBuildConfig cfg readFile parseJSON buildC8 =
      GoOutcome.panicked "interface conversion: interface is nil, not string" ∧
    Pipeline.StartBuild (NodeJSValidator.ValidateBuildConfig cfg readFile parseJSON)
      reg buildC8 =
      { registry := reg
        outcome := GoOutcome.panicked "interface conversion: interface is nil, not string"
        launched := false } := by
  exact ⟨rfl, rfl, rfl⟩

/-- C10 (confirmed): whenever `NodeJSBuilder.Build` succeeds, the
returned image identifier is the tag computed deterministically from
the project id and the commit hash, falling back to the build id when
the commit hash is empty. -/
theorem C10_image_tag (workDir : String) (env : BuilderEnv) (b : Build)
    (res : BuildResult)
    (h : NodeJSBuilder.Build workDir env b = Except.ok res) :
    res.imageID = NodeJSBuilder.imageTag b ∧
    (b.commitHash ≠ "" →
      res.imageID = "chef-" ++ b.projectID ++ ":" ++ b.commitHash) ∧
    (b.commitHash = "" →
      res.imageID = "chef-" ++ b.projectID ++ ":" ++ b.id) := by
  obtain ⟨p, d, ib, po, a⟩ := env
  cases p with
  | some e => simp [NodeJSBuilder.Build] at h
  | none =>
  cases d with
  | some e => simp [NodeJSBuilder.Build] at h
  | none =>
  cases ib with
  | some e => simp [NodeJSBuilder.Build] at h
  | none =>
  cases po with
  | some e => simp [NodeJSBuilder.Build] at h
  | none =>
  cases a with
  | some e => simp [NodeJSBuilder.Build] at h
  | none =>
    simp only [NodeJSBuilder.Build, Except.ok.injEq] at h
    subst h
    refine ⟨rfl, ?_, ?_⟩
    · intro hc
      simp [NodeJSBuilder.imageTag, hc]
    · intro hc
      simp [NodeJSBuilder.imageTag, hc]

/-- The build of the C10 witness: no commit hash, so the tag falls back
to the build id. -/
def buildC10 : Build := { id := "b7", projectID := "shop", commitHash := "" }

/-- C10 witness: a successful build of `buildC10` returns the image tag
derived from the project id and the build id. -/
theorem C10_image_tag_witness :
    ({ success := true, artifactPath := "/w/artifacts/b7.tar.gz"
       imageID := "chef-shop:b7" } : BuildResult).imageID =
      "chef-" ++ buildC10.projectID ++ ":" ++ buildC10.id :=
  (C10_image_tag "/w" {} buildC10
    { success := true, artifactPath := "/w/artifacts/b7.tar.gz"
      imageID := "chef-shop:b7" } rfl).2.2 rfl

end ChefInfra
